import Mathlib

/-!
Verification of the Seedling issue-triage pipeline (fetch → analyze → cache).

The Python sources are shallowly embedded here:
  * `cache_utils.py` — cache key derivation and the file-backed analysis cache,
    modelled as explicit state passing over a `CacheState`;
  * `github_utils.py` — `fetch_github_issue`, with the two HTTP requests
    modelled by an oracle `net : String → HttpResult` and the `try/except`
    chain modelled by `Except PyExc` plus an explicit handler;
  * `hf.py` — `analyze_issue_with_ai`, with the model call's outcome passed
    in as `Except PyExc String` (the `response.text` value or the exception).

Python string operations (`replace`, `split`, `strip`, `startswith`, slicing)
are re-implemented over `List Char` so that every definition is executable and
kernel-reducible.  `json.loads` is modelled by `jsonLoads`, a fuel-indexed
recursive-descent parser over the character list; the model covers objects,
arrays, strings with the common escapes, integers and the three literals
(floats, exponents and `\u` escapes are rejected — no claim exercises them).
-/

/-! ### Python-style string primitives (over `List Char`) -/

/-- Whitespace characters recognised by Python's `str.strip()`. -/
def pyIsSpace (c : Char) : Bool :=
  c = ' ' || c = '\t' || c = '\n' || c = '\x0d' || c = '\x0b' || c = '\x0c'

/-- Model of Python `str.strip()` with no argument. -/
def pyStripL (s : List Char) : List Char :=
  ((s.dropWhile pyIsSpace).reverse.dropWhile pyIsSpace).reverse

/-- Model of Python `str.strip()` on `String`. -/
def pyStrip (s : String) : String :=
  String.mk (pyStripL s.data)

/-- Model of Python `str.startswith(pat)`. -/
def pyStartsWith (s pat : String) : Bool :=
  pat.data.isPrefixOf s.data

/-- Model of Python slicing `s[n:]` (code-point based, as in Python). -/
def pyDrop (s : String) (n : Nat) : String :=
  String.mk (s.data.drop n)

/-- Model of Python `str.replace(pat, rep)` for a non-empty pattern
`p :: ps`: every non-overlapping occurrence is replaced, scanning left to
right.  Recursion is structural on the fuel, which the wrapper sets to the
input length — enough, since every step consumes at least one character; the
fuel-exhausted branch is therefore unreachable. -/
def pyReplaceCore (p : Char) (ps rep : List Char) : Nat → List Char → List Char
  | _, [] => []
  | 0, s => s
  | f + 1, c :: cs =>
    if (p :: ps).isPrefixOf (c :: cs) then
      rep ++ pyReplaceCore p ps rep f (cs.drop ps.length)
    else
      c :: pyReplaceCore p ps rep f cs

/-- Model of Python `str.replace` on `String`.  (Python's empty-pattern
behaviour is not modelled; the sources only replace non-empty patterns.) -/
def pyReplace (s pat rep : String) : String :=
  match pat.data with
  | [] => s
  | p :: ps => String.mk (pyReplaceCore p ps rep.data s.data.length s.data)

/-- Model of Python `str.split(sep)` for a non-empty separator `p :: ps`:
splits at every non-overlapping occurrence, keeping empty pieces, so the
result always has at least one element.  Fuel as in `pyReplaceCore`. -/
def pySplitCore (p : Char) (ps : List Char) : Nat → List Char → List (List Char)
  | _, [] => [[]]
  | 0, s => [s]
  | f + 1, c :: cs =>
    if (p :: ps).isPrefixOf (c :: cs) then
      [] :: pySplitCore p ps f (cs.drop ps.length)
    else
      match pySplitCore p ps f cs with
      | [] => [[c]]
      | piece :: rest => (c :: piece) :: rest

/-- Model of Python `str.split(sep)` on `String` (Python raises on an empty
separator; the sources only split on non-empty ones). -/
def pySplitOn (s sep : String) : List String :=
  match sep.data with
  | [] => [s]
  | p :: ps => (pySplitCore p ps s.data.length s.data).map String.mk

/-- Model of Python `sep.join(pieces)`. -/
def pyJoin (sep : String) : List String → String
  | [] => ""
  | [x] => x
  | x :: y :: rest => x ++ sep ++ pyJoin sep (y :: rest)

/-- Substring test: does `pat` occur inside `s`?  (Python's `pat in s`.) -/
def pySubstrOccurs (pat : List Char) : List Char → Bool
  | [] => pat.isEmpty
  | c :: cs => pat.isPrefixOf (c :: cs) || pySubstrOccurs pat cs

/-! ### Decimal rendering of naturals (Python `str(n)` for `n ≥ 0`) -/

/-- Character for a single decimal digit (`d < 10`). -/
def decDigitChar : Nat → Char
  | 0 => '0' | 1 => '1' | 2 => '2' | 3 => '3' | 4 => '4'
  | 5 => '5' | 6 => '6' | 7 => '7' | 8 => '8' | _ => '9'

/-- Numeric value of a decimal digit character. -/
def decDigitVal (c : Char) : Nat := c.toNat - 48

/-- Decimal digit list of a natural number, most significant first, structural
on a fuel bound; the fuel-exhausted branch only matters below 10. -/
def natDecimalCore : Nat → Nat → List Char
  | 0, n => [decDigitChar n]
  | f + 1, n =>
    if n < 10 then [decDigitChar n]
    else natDecimalCore f (n / 10) ++ [decDigitChar (n % 10)]

/-- Decimal digit list of a natural number (`n` itself is ample fuel: the
digit count of `n` never exceeds `n + 1`). -/
def natDecimalL (n : Nat) : List Char :=
  natDecimalCore n n

/-- Model of Python `str(n)` for a natural number. -/
def pyStrNat (n : Nat) : String :=
  String.mk (natDecimalL n)

/-- Value of a decimal digit string, used to invert `natDecimalL`. -/
def decValue (ds : List Char) : Nat :=
  ds.foldl (fun a c => 10 * a + decDigitVal c) 0

/-! ### Python JSON values (the result type of `json.loads`) -/

/-- Values produced by Python's `json.loads`, named after the Python types they
decode to (floats are not modelled; no claim exercises them). -/
inductive PyJson where
  | null
  | bool (b : Bool)
  | int (n : Int)
  | str (s : String)
  | list (xs : List PyJson)
  | dict (kvs : List (String × PyJson))

/-- First-match lookup in a dict's association list (keys are unique because
`pyDictInsert` overwrites). -/
def pyDictLookup : List (String × PyJson) → String → Option PyJson
  | [], _ => none
  | (k0, v0) :: rest, k => if k0 = k then some v0 else pyDictLookup rest k

/-- Python dict assignment: overwrite the value of an existing key, otherwise
append the new pair. -/
def pyDictInsert : List (String × PyJson) → String → PyJson → List (String × PyJson)
  | [], k, v => [(k, v)]
  | (k0, v0) :: rest, k, v =>
    if k0 = k then (k0, v) :: rest else (k0, v0) :: pyDictInsert rest k v

/-- Python type name of a value, as it appears in error messages. -/
def pyTypeName : PyJson → String
  | .null => "NoneType"
  | .bool _ => "bool"
  | .int _ => "int"
  | .str _ => "str"
  | .list _ => "list"
  | .dict _ => "dict"

/-- Python truthiness of a decoded JSON value. -/
def pyTruthy : PyJson → Bool
  | .null => false
  | .bool b => b
  | .int n => n ≠ 0
  | .str s => !s.data.isEmpty
  | .list xs => !xs.isEmpty
  | .dict kvs => !kvs.isEmpty

/-! ### A model of `json.loads` -/

/-- Whitespace skipped by Python's JSON decoder (space, tab, newline, return). -/
def jsonSkipWs : List Char → List Char
  | [] => []
  | c :: cs =>
    if c = ' ' || c = '\t' || c = '\n' || c = '\x0d' then jsonSkipWs cs else c :: cs

/-- Decimal digit test. -/
def jsonIsDigit (c : Char) : Bool := '0' ≤ c && c ≤ '9'

/-- Splits a leading run of decimal digits off the input. -/
def jsonSpanDigits : List Char → List Char × List Char
  | [] => ([], [])
  | c :: cs =>
    if jsonIsDigit c then
      let r := jsonSpanDigits cs
      (c :: r.1, r.2)
    else ([], c :: cs)

/-- Escape table of the JSON string grammar: each escape letter with the
character it denotes (`\u` escapes are not modelled). -/
def jsonEscapeTable : List (Char × Char) :=
  [('"', '"'), ('\\', '\\'), ('/', '/'), ('b', '\x08'), ('f', '\x0c'),
    ('n', '\n'), ('r', '\x0d'), ('t', '\t')]

/-- Decodes a JSON string escape character via the table. -/
def jsonEscape (c : Char) : Option Char :=
  (jsonEscapeTable.find? (fun pr => pr.1 = c)).map (fun pr => pr.2)

/-- Scans the remainder of a JSON string literal (after the opening quote),
returning the decoded string and the rest of the input. -/
def jsonScanString (acc : List Char) : List Char → Option (String × List Char)
  | [] => none
  | '"' :: cs => some (String.mk acc.reverse, cs)
  | '\\' :: d :: cs =>
    match jsonEscape d with
    | some e => jsonScanString (e :: acc) cs
    | none => none
  | c :: cs => jsonScanString (c :: acc) cs

mutual

/-- Fuel-indexed parser for one JSON value; returns the value and the rest of
the input.  Fuel strictly decreases along every call chain while at least one
character is consumed per step, so `length + 1` fuel always suffices. -/
def jsonParseValue : Nat → List Char → Option (PyJson × List Char)
  | 0, _ => none
  | f + 1, s0 =>
    match jsonSkipWs s0 with
    | [] => none
    | c :: cs =>
      if c = '{' then
        match jsonSkipWs cs with
        | '}' :: rest => some (.dict [], rest)
        | s1 => jsonParsePairs f [] s1
      else if c = '[' then
        match jsonSkipWs cs with
        | ']' :: rest => some (.list [], rest)
        | s1 => jsonParseItems f [] s1
      else if c = '"' then
        match jsonScanString [] cs with
        | some (str, rest) => some (.str str, rest)
        | none => none
      else if c = 't' then
        if ['r', 'u', 'e'].isPrefixOf cs then some (.bool true, cs.drop 3) else none
      else if c = 'f' then
        if ['a', 'l', 's', 'e'].isPrefixOf cs then some (.bool false, cs.drop 4) else none
      else if c = 'n' then
        if ['u', 'l', 'l'].isPrefixOf cs then some (.null, cs.drop 3) else none
      else if c = '-' then
        match jsonSpanDigits cs with
        | ([], _) => none
        | (ds, rest) => some (.int (-(decValue ds : Int)), rest)
      else if jsonIsDigit c then
        match jsonSpanDigits (c :: cs) with
        | ([], _) => none
        | (ds, rest) => some (.int (decValue ds : Int), rest)
      else none

/-- Parses the key/value pairs of a JSON object (input positioned at the first
key); duplicate keys overwrite, as in Python. -/
def jsonParsePairs : Nat → List (String × PyJson) → List Char →
    Option (PyJson × List Char)
  | 0, _, _ => none
  | f + 1, acc, s =>
    match s with
    | '"' :: cs =>
      match jsonScanString [] cs with
      | none => none
      | some (k, r1) =>
        match jsonSkipWs r1 with
        | ':' :: r2 =>
          match jsonParseValue f r2 with
          | none => none
          | some (v, r3) =>
            match jsonSkipWs r3 with
            | ',' :: r4 => jsonParsePairs f (pyDictInsert acc k v) (jsonSkipWs r4)
            | '}' :: r4 => some (.dict (pyDictInsert acc k v), r4)
            | _ => none
        | _ => none
    | _ => none

/-- Parses the elements of a JSON array (input positioned at the first
element). -/
def jsonParseItems : Nat → List PyJson → List Char → Option (PyJson × List Char)
  | 0, _, _ => none
  | f + 1, acc, s =>
    match jsonParseValue f s with
    | none => none
    | some (v, r1) =>
      match jsonSkipWs r1 with
      | ',' :: r2 => jsonParseItems f (v :: acc) r2
      | ']' :: r2 => some (.list (v :: acc).reverse, r2)
      | _ => none

end

/-- Model of Python `json.loads`: parse one value and require that only
whitespace remains; `none` models a raised `json.JSONDecodeError`.  The fuel
`2·length + 2` is generous: every unit of fuel spent corresponds to at least
half a character of consumed input. -/
def jsonLoads (s : String) : Option PyJson :=
  match jsonParseValue (2 * s.data.length + 2) s.data with
  | some (j, rest) => if jsonSkipWs rest = [] then some j else none
  | none => none

/-! ### Python exceptions relevant to the sources

`jsonDecodeError` is a subclass of `ValueError`; `requestTimeout`
(`requests.exceptions.Timeout`) is a subclass of `requestError`
(`requests.exceptions.RequestException`); every constructor is a subclass of
`Exception`.  The subclass relations are encoded directly in the two handler
functions below, which mirror the `except` chains of the sources. -/

inductive PyExc where
  | valueError (msg : String)
  | jsonDecodeError (msg : String)
  | requestTimeout (msg : String)
  | requestError (msg : String)
  | otherExc (msg : String)

/-- Python `str(e)` for the exceptions above: the carried message. -/
def pyExcStr : PyExc → String
  | .valueError m => m
  | .jsonDecodeError m => m
  | .requestTimeout m => m
  | .requestError m => m
  | .otherExc m => m

/-- Python `x.get(k, dflt)`: defined on dicts, an `AttributeError` on anything
else. -/
def pyDictGet (j : PyJson) (k : String) (dflt : PyJson) : Except PyExc PyJson :=
  match j with
  | .dict kvs => .ok ((pyDictLookup kvs k).getD dflt)
  | other =>
    .error (.otherExc
      ("\x27" ++ pyTypeName other ++ "\x27 object has no attribute \x27get\x27"))

/-- Python `k in j` for a decoded JSON value: key membership on dicts, element
membership on lists, substring test on strings, `TypeError` otherwise. -/
def pyContainsKey (k : String) (j : PyJson) : Except PyExc Bool :=
  match j with
  | .dict kvs => .ok (pyDictLookup kvs k).isSome
  | .list xs => .ok (xs.any (fun x => match x with | .str s => s = k | _ => false))
  | .str s => .ok (pySubstrOccurs k.data s.data)
  | other =>
    .error (.otherExc ("argument of type \x27" ++ pyTypeName other ++ "\x27 is not iterable"))

/-- Left-to-right effectful map over a list, stopping at the first raised
exception (the evaluation order of a Python list comprehension). -/
def mapExc {α β : Type} (f : α → Except PyExc β) : List α → Except PyExc (List β)
  | [] => .ok []
  | a :: rest =>
    match f a with
    | .error e => .error e
    | .ok b =>
      match mapExc f rest with
      | .error e => .error e
      | .ok bs => .ok (b :: bs)

/-! ### Embedding of `github_utils.py` -/

/-- Outcome of one `requests.get` call, supplied by the network oracle: either
a raised transport exception, or a response with a status code and the result
its `.json()` method would produce (`none` models a body that fails to decode,
so that calling `.json()` raises `json.JSONDecodeError`). -/
inductive HttpResult where
  | raised (e : PyExc)
  | response (status : Nat) (jsonBody : Option PyJson)

/-- Descriptor of one outbound HTTP request, recorded in the order the
requests are issued.  `timeout` is the explicit bound passed to
`requests.get`, if any. -/
structure HttpRequest where
  url : String
  headers : List (String × String)
  timeout : Option Nat
deriving DecidableEq

/-- Return value of `fetch_github_issue`: either the success-shaped dict
`{"title": …, "body": …, "comments": …}` or the failure dict `{"error": …}`. -/
inductive IssueRecord where
  | fields (title body : PyJson) (comments : String)
  | failure (error : String)

/-- Headers built from the optional `GITHUB_TOKEN` environment value. -/
def githubHeaders (token : Option String) : List (String × String) :=
  match token with
  | some t => [("Authorization", "token " ++ t)]
  | none => []

/-- URL parsing step of `fetch_github_issue`:
`repo_url.replace("https://github.com/", "").split("/")` (the `[:2]` slice and
tuple unpacking are applied at the match site). -/
def fetchSegments (repo_url : String) : List String :=
  pySplitOn (pyReplace repo_url "https://github.com/" "") "/"

/-- The issue endpoint URL built by `fetch_github_issue`. -/
def issueApiUrl (owner repo : String) (issue_number : Nat) : String :=
  "https://api.github.com/repos/" ++ owner ++ "/" ++ repo ++ "/issues/" ++
    pyStrNat issue_number

/-- Newline-joining of the comment bodies:
`"\n".join([c.get("body", "") for c in comments]) if comments else ""`. -/
def commentsJoin (comments : PyJson) : Except PyExc String :=
  if pyTruthy comments then
    match comments with
    | .list xs =>
      match mapExc (fun c => pyDictGet c "body" (.str "")) xs with
      | .error e => .error e
      | .ok bodies =>
        match mapExc
            (fun b => match b with
              | PyJson.str s => Except.ok s
              | other =>
                Except.error (PyExc.otherExc
                  ("sequence item: expected str instance, " ++
                    pyTypeName other ++ " found"))) bodies with
        | .error e => .error e
        | .ok strs => .ok (pyJoin "\n" strs)
    | .str s => .ok (pyJoin "\n" (s.data.map (fun c => String.mk [c])))
    | .dict kvs => .ok (pyJoin "\n" (kvs.map (fun kv => kv.1)))
    | other =>
      .error (.otherExc ("\x27" ++ pyTypeName other ++ "\x27 object is not iterable"))
  else .ok ""

/-- The issue request issued by `fetch_github_issue`:
`requests.get(issue_url, headers=headers, timeout=10)`. -/
def issueRequest (token : Option String) (owner repo : String)
    (issue_number : Nat) : HttpRequest :=
  ⟨issueApiUrl owner repo issue_number, githubHeaders token, some 10⟩

/-- The comments request issued by `fetch_github_issue`:
`requests.get(comments_url, headers=headers, timeout=10)`. -/
def commentsRequest (token : Option String) (owner repo : String)
    (issue_number : Nat) : HttpRequest :=
  ⟨issueApiUrl owner repo issue_number ++ "/comments", githubHeaders token, some 10⟩

/-- Body of the `try` block of `fetch_github_issue`, together with the list of
HTTP requests issued before returning or raising.  Note that the comments
request is issued, with an explicit `timeout=10`, before the issue response's
status is inspected. -/
def fetchAttempt (net : String → HttpResult) (token : Option String)
    (repo_url : String) (issue_number : Nat) :
    Except PyExc IssueRecord × List HttpRequest :=
  match fetchSegments repo_url with
  | owner :: repo :: _ =>
    match net (issueApiUrl owner repo issue_number) with
    | .raised e => (.error e, [issueRequest token owner repo issue_number])
    | .response st1 body1 =>
      match net (issueApiUrl owner repo issue_number ++ "/comments") with
      | .raised e =>
        (.error e,
          [issueRequest token owner repo issue_number,
            commentsRequest token owner repo issue_number])
      | .response st2 body2 =>
        ((if st1 ≠ 200 then
            .ok (.failure ("GitHub API error: " ++ pyStrNat st1))
          else
            match body1 with
            | none => .error (.jsonDecodeError "Expecting value")
            | some issue =>
              match (if st2 = 200 then
                       match body2 with
                       | none => Except.error (PyExc.jsonDecodeError "Expecting value")
                       | some cj => Except.ok cj
                     else Except.ok (PyJson.list [])) with
              | .error e => .error e
              | .ok comments =>
                match commentsJoin comments with
                | .error e => .error e
                | .ok ctext =>
                  match pyDictGet issue "title" (.str "") with
                  | .error e => .error e
                  | .ok title =>
                    match pyDictGet issue "body" (.str "") with
                    | .error e => .error e
                    | .ok body => .ok (.fields title body ctext)),
          [issueRequest token owner repo issue_number,
            commentsRequest token owner repo issue_number])
  | _ => (.error (.valueError "not enough values to unpack (expected 2, got 1)"), [])

/-- The `except` chain of `fetch_github_issue`, in source order: `ValueError`
(which also catches `json.JSONDecodeError`), `requests.exceptions.Timeout`,
`requests.exceptions.RequestException`, then bare `Exception`. -/
def fetchExcRecord : PyExc → IssueRecord
  | .valueError _ => .failure "Invalid GitHub URL format"
  | .jsonDecodeError _ => .failure "Invalid GitHub URL format"
  | .requestTimeout _ => .failure "Request timeout - GitHub server took too long"
  | .requestError m => .failure ("Network error: " ++ m)
  | .otherExc m => .failure m

/-- Model of `fetch_github_issue`: the `try` body with every raised exception
converted to a failure record by the handler chain.  The second component is
the trace of outbound HTTP requests. -/
def fetch_github_issue (net : String → HttpResult) (token : Option String)
    (repo_url : String) (issue_number : Nat) : IssueRecord × List HttpRequest :=
  match fetchAttempt net token repo_url issue_number with
  | (.ok r, log) => (r, log)
  | (.error e, log) => (fetchExcRecord e, log)

/-! ### Embedding of `hf.py` -/

/-- Python `str(n)` for an integer. -/
def pyStrInt (n : Int) : String :=
  if n < 0 then "-" ++ pyStrNat (-n).toNat else pyStrNat n.toNat

mutual

/-- Python `repr` of a decoded JSON value (string escaping inside `repr` is
elided; no claim renders a string that needs it). -/
def pyReprOf : PyJson → String
  | .null => "None"
  | .bool true => "True"
  | .bool false => "False"
  | .int n => pyStrInt n
  | .str s => "\x27" ++ s ++ "\x27"
  | .list xs => "[" ++ pyReprOfList xs ++ "]"
  | .dict kvs => "\x7b" ++ pyReprOfDict kvs ++ "\x7d"

/-- Comma-joined `repr`s of list elements. -/
def pyReprOfList : List PyJson → String
  | [] => ""
  | [x] => pyReprOf x
  | x :: y :: rest => pyReprOf x ++ ", " ++ pyReprOfList (y :: rest)

/-- Comma-joined `repr`s of dict entries. -/
def pyReprOfDict : List (String × PyJson) → String
  | [] => ""
  | [(k, v)] => "\x27" ++ k ++ "\x27: " ++ pyReprOf v
  | (k, v) :: p :: rest => "\x27" ++ k ++ "\x27: " ++ pyReprOf v ++ ", " ++ pyReprOfDict (p :: rest)

end

/-- Python `str()` of a decoded JSON value, as an f-string renders it:
identity on strings, `repr`-like elsewhere. -/
def pyStrOf : PyJson → String
  | .str s => s
  | other => pyReprOf other

/-- Python `issue_data.get(k, dflt)` where `issue_data` is the typed `dict`
parameter of `analyze_issue_with_ai`. -/
def dictGetD (kvs : List (String × PyJson)) (k : String) (dflt : PyJson) : PyJson :=
  (pyDictLookup kvs k).getD dflt

/-- The prompt f-string of `analyze_issue_with_ai`, built verbatim from the
source (literal braces written with escapes). -/
def analysisPrompt (issue_data : List (String × PyJson)) : String :=
  "You are an expert GitHub issue triage assistant with deep experience in software engineering.\n\nYour task: Analyze the following GitHub issue and extract structured insights.\n\nCRITICAL: Return ONLY valid JSON in this exact format. No explanation, no markdown, just JSON.\n\n\x7b\n  \"summary\": \"One clear sentence describing the core problem or feature request\",\n  \"type\": \"Classify as one of: bug, feature_request, documentation, question, other\",\n  \"priority_score\": \"A score 1-5 with brief justification (e.g., \x274 - Affects core functionality\x27)\",\n  \"suggested_labels\": [\"label1\", \"label2\", \"label3\"],\n  \"potential_impact\": \"Brief sentence on user/business impact if issue is a bug, or value if feature\"\n\x7d\n\nGitHub Issue Details:\n---\nTitle: " ++
    pyStrOf (dictGetD issue_data "title" (.str "")) ++
    "\n\nBody:\n" ++
    pyStrOf (dictGetD issue_data "body" (.str "No description provided")) ++
    "\n\nCommunity Comments:\n" ++
    pyStrOf (dictGetD issue_data "comments" (.str "No comments yet")) ++
    "\n---\n\nRemember: \n1. Output ONLY JSON - no markdown, no explanation\n2. Type must be exactly one of: bug, feature_request, documentation, question, other\n3. Priority must be 1-5\n4. For issues with minimal info, infer from title and comments\n5. Labels should be specific and actionable\n\nRETURN ONLY JSON:"

/-- Descriptor of the single model-service call made by
`analyze_issue_with_ai`: `client.models.generate_content` is invoked with a
model name and the prompt only — no timeout argument exists in the call, so
the explicit bound is `none` (transport defaults apply). -/
structure ModelRequest where
  model : String
  contents : String
  timeout : Option Nat

/-- The model request issued by `analyze_issue_with_ai` for a given issue
dict. -/
def analyzeModelRequest (issue_data : List (String × PyJson)) : ModelRequest :=
  ⟨"gemini-3-flash-preview", analysisPrompt issue_data, none⟩

/-- Return value of `analyze_issue_with_ai`: the parsed dict on success, or a
failure dict `{"error": …}` with an optional `"details"` entry. -/
inductive AnalysisRecord where
  | result (data : PyJson)
  | failure (error : String) (details : Option String)

/-- The five success fields validated by `analyze_issue_with_ai`. -/
def requiredAnalysisKeys : List String :=
  ["summary", "type", "priority_score", "suggested_labels", "potential_impact"]

/-- Model of `all(key in result for key in [...])`: left-to-right with early
exit, propagating a raised exception from the membership test. -/
def pyAllKeysIn : List String → PyJson → Except PyExc Bool
  | [], _ => .ok true
  | k :: ks, j =>
    match pyContainsKey k j with
    | .error e => .error e
    | .ok false => .ok false
    | .ok true => pyAllKeysIn ks j

/-- Body of the `try` block of `analyze_issue_with_ai`, from the model call
on: `modelReply` is the outcome of `client.models.generate_content(...)`
followed by `.text` — either the reply text or a raised exception. -/
def analyzeAttempt (modelReply : Except PyExc String) :
    Except PyExc AnalysisRecord :=
  match modelReply with
  | .error e => .error e
  | .ok raw =>
    let t0 := pyStrip raw
    let fenced : Except PyExc String :=
      if pyStartsWith t0 "```" then
        match pySplitOn t0 "```" with
        | _ :: x :: _ => .ok (if pyStartsWith x "json" then pyDrop x 4 else x)
        | _ => .error (.otherExc "list index out of range")
      else .ok t0
    match fenced with
    | .error e => .error e
    | .ok t1 =>
      match jsonLoads t1 with
      | none => .error (.jsonDecodeError "Expecting value")
      | some result =>
        match pyAllKeysIn requiredAnalysisKeys result with
        | .error e => .error e
        | .ok false => .ok (.failure "Incomplete analysis response" none)
        | .ok true => .ok (.result result)

/-- Model of `analyze_issue_with_ai`: the `try` body with the two handlers of
the source, `except json.JSONDecodeError` then `except Exception`, in that
order. -/
def analyze_issue_with_ai (modelReply : Except PyExc String) : AnalysisRecord :=
  match analyzeAttempt modelReply with
  | .ok r => r
  | .error (.jsonDecodeError _) =>
    .failure "AI response parsing failed" (some "Could not parse AI output as JSON")
  | .error e => .failure "Analysis failed" (some (pyExcStr e))

/-! ### Embedding of `cache_utils.py` -/

/-- Model of `_get_cache_key`:
`f"{repo_url.replace('/', '_').replace(':', '')}_issue_{issue_number}.json"`. -/
def getCacheKey (repo_url : String) (issue_number : Nat) : String :=
  pyReplace (pyReplace repo_url "/" "_") ":" "" ++ "_issue_" ++
    pyStrNat issue_number ++ ".json"

/-- State of the cache directory: whether it has been created, and for each
filename either no file (`none`), an existing file whose content cannot be
read back as JSON (`some none`), or an existing file holding a serialized
record (`some (some j)`); the `json.dump`/`json.load` codec of the standard
library is treated as an exact round-trip for decoded values. -/
structure CacheState where
  dirCreated : Bool
  stored : String → Option (Option PyJson)

/-- Model of `_ensure_cache_dir`: `CACHE_DIR.mkdir(exist_ok=True)`. -/
def ensureCacheDir (s : CacheState) : CacheState :=
  ⟨true, s.stored⟩

/-- Model of `get_cached_analysis`: ensure the directory, look the entry up
under the derived key, and return `None` for a missing, unreadable or
unparseable entry (the `except Exception` handler around `json.load`). -/
def get_cached_analysis (repo_url : String) (issue_number : Nat)
    (s : CacheState) : Option PyJson × CacheState :=
  let s1 := ensureCacheDir s
  match s1.stored (getCacheKey repo_url issue_number) with
  | none => (none, s1)
  | some none => (none, s1)
  | some (some j) => (some j, s1)

/-- Model of `cache_analysis`: ensure the directory and overwrite the entry
under the derived key.  `writeSucceeds` models whether the `open`/`json.dump`
step raises; a failed write is swallowed (`except Exception: pass`), leaving
the state unchanged apart from directory creation. -/
def cache_analysis (repo_url : String) (issue_number : Nat) (result : PyJson)
    (writeSucceeds : Bool) (s : CacheState) : CacheState :=
  let s1 := ensureCacheDir s
  if writeSucceeds then
    ⟨s1.dirCreated,
      fun f => if f = getCacheKey repo_url issue_number then some (some result)
               else s1.stored f⟩
  else s1

/-- Structural well-formedness of an AnalysisRecord dict: all five success
fields present. -/
def isWellFormedAnalysis : PyJson → Bool
  | .dict kvs => requiredAnalysisKeys.all (fun k => (pyDictLookup kvs k).isSome)
  | _ => false

/-! ### Auxiliary predicates used by the theorems -/

/-- Structured (container) data among decoded JSON values: dicts and lists.
Scalars are not containers; Python's `in` raises `TypeError` on numbers and
`None`, so the validation step behaves differently there. -/
def isStructuredData : PyJson → Bool
  | .dict _ => true
  | .list _ => true
  | _ => false

/-- Whether Python's `k in j` holds for a container value. -/
def pyHasKey (j : PyJson) (k : String) : Bool :=
  match j with
  | .dict kvs => (pyDictLookup kvs k).isSome
  | .list xs => xs.any (fun x => match x with | .str s => s = k | _ => false)
  | _ => false

/-! ### Concrete fixtures for witnesses and counterexamples -/

/-- Issue body returned by the tracker in the concrete scenarios. -/
def issueDictTB : PyJson := .dict [("title", .str "T"), ("body", .str "B")]

/-- Repository URL used by the concrete scenarios. -/
def seedRepoUrl : String := "https://github.com/acme/widgets"

/-- The issue endpoint URL derived from `seedRepoUrl` and issue number 7. -/
def seedIssueUrl : String := issueApiUrl "acme" "widgets" 7

/-- Issue request succeeds (200, parseable dict); the comments request raises
a transport timeout. -/
def netCommentsDown : String → HttpResult := fun u =>
  if u = seedIssueUrl then .response 200 (some issueDictTB)
  else .raised (.requestTimeout "Read timed out.")

/-- Issue request succeeds (200, parseable dict); the comments request returns
a non-200 response. -/
def netCommentsRejected : String → HttpResult := fun u =>
  if u = seedIssueUrl then .response 200 (some issueDictTB)
  else .response 500 none

/-- Issue request returns 404; the comments request returns a response. -/
def netIssue404 : String → HttpResult := fun u =>
  if u = seedIssueUrl then .response 404 none
  else .response 200 (some (.list []))

/-- Issue request returns 404; the comments request raises a transport
timeout. -/
def netIssue404CommentsDown : String → HttpResult := fun u =>
  if u = seedIssueUrl then .response 404 none
  else .raised (.requestTimeout "Read timed out.")

/-- Issue request returns 200 with a body that is not valid JSON; the comments
request returns a response. -/
def netIssueBadBody : String → HttpResult := fun u =>
  if u = seedIssueUrl then .response 200 none
  else .response 200 (some (.list []))

/-- Issue request returns 200 with a body that is not valid JSON; the comments
request raises a transport timeout. -/
def netIssueBadBodyCommentsDown : String → HttpResult := fun u =>
  if u = seedIssueUrl then .response 200 none
  else .raised (.requestTimeout "Read timed out.")

/-- Every request raises a transport error. -/
def netUnreachable : String → HttpResult := fun _ =>
  .raised (.requestError "Connection refused")

/-- Model reply: the claim's five-field JSON object in a fenced block tagged
`json`. -/
def fencedJsonReply : String :=
  "```json\n\x7b\"summary\":\"s\",\"type\":\"bug\",\"priority_score\":\"3 - x\",\"suggested_labels\":[\"a\"],\"potential_impact\":\"i\"\x7d\n```"

/-- The same five-field object in a fenced block tagged `yaml`. -/
def yamlFencedReply : String :=
  "```yaml\n\x7b\"summary\":\"s\",\"type\":\"bug\",\"priority_score\":\"3 - x\",\"suggested_labels\":[\"a\"],\"potential_impact\":\"i\"\x7d\n```"

/-- The decoded five-field analysis object of the two fenced replies. -/
def fencedAnalysis : PyJson :=
  .dict [("summary", .str "s"), ("type", .str "bug"),
    ("priority_score", .str "3 - x"), ("suggested_labels", .list [.str "a"]),
    ("potential_impact", .str "i")]

/-- Model reply: unfenced JSON object missing `potential_impact`. -/
def incompleteReply : String :=
  "\x7b\"summary\":\"s\",\"type\":\"bug\",\"priority_score\":\"3 - x\",\"suggested_labels\":[\"a\"]\x7d"

/-- The decoded four-field object of `incompleteReply`. -/
def incompleteParsed : PyJson :=
  .dict [("summary", .str "s"), ("type", .str "bug"),
    ("priority_score", .str "3 - x"), ("suggested_labels", .list [.str "a"])]

/-- A cache state with no directory and no entries. -/
def emptyCache : CacheState := ⟨false, fun _ => none⟩

/-! ### Properties of the decimal rendering -/

/-- Digit characters decode back to their digit. -/
theorem decDigitVal_decDigitChar : ∀ d < 10, decDigitVal (decDigitChar d) = d := by
  decide

/-- Valuation of a single digit character. -/
theorem decValue_single (c : Char) : decValue [c] = decDigitVal c := by
  simp [decValue]

/-- Valuation after appending one digit character. -/
theorem decValue_append_digit (ds : List Char) (c : Char) :
    decValue (ds ++ [c]) = 10 * decValue ds + decDigitVal c := by
  simp [decValue, List.foldl_append]

/-- With enough fuel, the decimal rendering is inverted by the valuation. -/
theorem decValue_natDecimalCore :
    ∀ f n, n < 10 ^ (f + 1) → decValue (natDecimalCore f n) = n := by
  intro f
  induction f with
  | zero =>
    intro n hn
    have h10 : n < 10 := by simpa using hn
    simp [natDecimalCore, decValue_single, decDigitVal_decDigitChar n h10]
  | succ f ih =>
    intro n hn
    rw [natDecimalCore]
    split
    next h => simp [decValue_single, decDigitVal_decDigitChar n h]
    next h =>
      rw [decValue_append_digit]
      have hdiv : n / 10 < 10 ^ (f + 1) := by
        rw [Nat.div_lt_iff_lt_mul (by omega)]
        calc n < 10 ^ (f + 1 + 1) := hn
          _ = 10 ^ (f + 1) * 10 := by rw [pow_succ]
      rw [ih (n / 10) hdiv, decDigitVal_decDigitChar (n % 10) (Nat.mod_lt _ (by omega))]
      omega

/-- The decimal rendering of a natural number is inverted by the valuation. -/
theorem decValue_natDecimalL (n : Nat) : decValue (natDecimalL n) = n := by
  have hfuel : n < 10 ^ (n + 1) := by
    calc n < 10 ^ n := Nat.lt_pow_self (by omega) n
      _ ≤ 10 ^ (n + 1) := Nat.pow_le_pow_right (by omega) (by omega)
  exact decValue_natDecimalCore n n hfuel

/-- The decimal rendering is injective. -/
theorem natDecimalL_inj {m n : Nat} (h : natDecimalL m = natDecimalL n) : m = n := by
  have hm := decValue_natDecimalL m
  rw [h, decValue_natDecimalL] at hm
  omega

/-! ### Claim C1 — cache key derivation -/

/-- C1 (amended): the cache key derivation of `_get_cache_key` is
deterministic — the same (repository URL, issue number) pair always derives
the same key — and, for a fixed repository URL, it is injective in the issue
number.  Full injectivity over pairs fails (see the counterexample): the
sanitisation merges `/` with `_` and erases `:`, so distinct URLs can derive
the same key. -/
theorem c1_cache_key_deterministic_and_number_injective :
    (∀ u1 u2 : String, ∀ n1 n2 : Nat, u1 = u2 → n1 = n2 →
       getCacheKey u1 n1 = getCacheKey u2 n2) ∧
    (∀ u : String, ∀ n1 n2 : Nat,
       getCacheKey u n1 = getCacheKey u n2 → n1 = n2) := by
  constructor
  · rintro u1 u2 n1 n2 rfl rfl
    rfl
  · intro u n1 n2 h
    have hd := congrArg String.data h
    simp only [getCacheKey, String.data_append, pyStrNat, List.append_assoc] at hd
    have h1 := List.append_cancel_left hd
    have h2 := List.append_cancel_left h1
    have h3 := List.append_cancel_right h2
    exact natDecimalL_inj h3

/-- Witness for C1: both parts applied at concrete pairs. -/
theorem c1_cache_key_witness :
    getCacheKey "https://github.com/acme/widgets" 42 =
      getCacheKey "https://github.com/acme/widgets" 42 ∧ (7 : Nat) = 7 :=
  ⟨c1_cache_key_deterministic_and_number_injective.1
      "https://github.com/acme/widgets" "https://github.com/acme/widgets" 42 42 rfl rfl,
   c1_cache_key_deterministic_and_number_injective.2
      "https://github.com/acme/widgets" 7 7 rfl⟩

/-- Counterexample for C1 as stated: the distinct pairs `("a/b", 1)` and
`("a_b", 1)` derive the same key, so the derivation is not injective. -/
theorem c1_cache_key_counterexample :
    getCacheKey "a/b" 1 = getCacheKey "a_b" 1 ∧ ("a/b" : String) ≠ "a_b" :=
  ⟨rfl, by decide⟩

/-! ### Claim C3 — cache round-trip -/

/-- C3: for every cache state, key and well-formed analysis record, a
successful `cache_analysis` followed by `get_cached_analysis` for the same key
returns the stored record, and the cache directory exists afterwards even if
it did not before. -/
theorem c3_cache_roundtrip (s : CacheState) (u : String) (n : Nat) (r : PyJson)
    (_hwf : isWellFormedAnalysis r = true) :
    (get_cached_analysis u n (cache_analysis u n r true s)).1 = some r ∧
    (cache_analysis u n r true s).dirCreated = true := by
  refine ⟨?_, rfl⟩
  simp [get_cached_analysis, cache_analysis, ensureCacheDir]

/-- Witness for C3: the round-trip at a concrete record and the empty,
directory-less cache state. -/
theorem c3_cache_roundtrip_witness :
    isWellFormedAnalysis fencedAnalysis = true ∧
    ((get_cached_analysis seedRepoUrl 7
        (cache_analysis seedRepoUrl 7 fencedAnalysis true emptyCache)).1 =
          some fencedAnalysis ∧
      (cache_analysis seedRepoUrl 7 fencedAnalysis true emptyCache).dirCreated = true) :=
  ⟨rfl, c3_cache_roundtrip emptyCache seedRepoUrl 7 fencedAnalysis rfl⟩

/-! ### Claim C2 — comments failures and the fetch result -/

/-- C2 (amended): when the issue request succeeds with status 200 and a body
that decodes to a JSON object, a comments request that returns a non-200
response is soft-failed: `fetch_github_issue` returns the success-shaped
record with `comments` equal to the empty string.  A transport failure of the
comments request, by contrast, is not soft-failed (see the counterexample):
the exception escapes to the handler chain and an error record is returned,
because the code issues the comments request inside the `try` block before
inspecting any status. -/
theorem c2_comments_non200_soft_failed (net : String → HttpResult)
    (token : Option String) (u : String) (n : Nat) (owner repo : String)
    (rest : List String) (kvs : List (String × PyJson)) (st2 : Nat)
    (body2 : Option PyJson)
    (hseg : fetchSegments u = owner :: repo :: rest)
    (h1 : net (issueApiUrl owner repo n) = .response 200 (some (.dict kvs)))
    (h2 : net (issueApiUrl owner repo n ++ "/comments") = .response st2 body2)
    (hst2 : st2 ≠ 200) :
    (fetch_github_issue net token u n).1 =
      .fields (dictGetD kvs "title" (.str "")) (dictGetD kvs "body" (.str "")) "" := by
  simp [fetch_github_issue, fetchAttempt, hseg, h1, h2, hst2, commentsJoin,
    pyTruthy, pyDictGet, dictGetD]

/-- Witness for C2: issue request 200, comments request answered 500 — the
result is the success-shaped record with empty comments. -/
theorem c2_comments_non200_soft_failed_witness :
    (fetch_github_issue netCommentsRejected none seedRepoUrl 7).1 =
      .fields (.str "T") (.str "B") "" :=
  c2_comments_non200_soft_failed netCommentsRejected none seedRepoUrl 7
    "acme" "widgets" [] [("title", .str "T"), ("body", .str "B")] 500 none
    rfl rfl rfl (by decide)

/-- Counterexample for C2 as stated: the issue request succeeds with 200 and a
parseable body, the comments request raises a transport timeout, and fetch
returns an error record — not a success-shaped record with empty comments. -/
theorem c2_comments_transport_counterexample :
    (fetch_github_issue netCommentsDown none seedRepoUrl 7).1 =
      .failure "Request timeout - GitHub server took too long" := rfl

/-! ### Claim C7 — malformed URL -/

/-- C7: whenever URL parsing yields fewer than two segments,
`fetch_github_issue` returns the invalid-URL error record and issues no HTTP
request at all. -/
theorem c7_invalid_url_no_network (net : String → HttpResult)
    (token : Option String) (u : String) (n : Nat)
    (h : (fetchSegments u).length < 2) :
    fetch_github_issue net token u n = (.failure "Invalid GitHub URL format", []) := by
  rcases hs : fetchSegments u with - | ⟨a, - | ⟨b, l⟩⟩
  · simp [fetch_github_issue, fetchAttempt, hs, fetchExcRecord]
  · simp [fetch_github_issue, fetchAttempt, hs, fetchExcRecord]
  · rw [hs] at h
    simp at h
    omega

/-- Witness for C7: a URL without a slash yields one segment, the invalid-URL
record, and an empty request trace. -/
theorem c7_invalid_url_no_network_witness :
    fetch_github_issue netUnreachable none "not-a-github-url" 5 =
      (.failure "Invalid GitHub URL format", []) :=
  c7_invalid_url_no_network netUnreachable none "not-a-github-url" 5 (by decide)

/-! ### Claim C8 — non-200 issue status -/

/-- C8 (amended): when the issue response has a non-200 status and the
comments request also returns a response (rather than raising), fetch returns
the error record carrying that status code, for any response bodies — neither
body is parsed.  If the comments request raises, the exception wins instead
(see the counterexample), because the comments request is issued before the
status check. -/
theorem c8_api_error_status (net : String → HttpResult) (token : Option String)
    (u : String) (n : Nat) (owner repo : String) (rest : List String)
    (st1 : Nat) (body1 : Option PyJson) (st2 : Nat) (body2 : Option PyJson)
    (hseg : fetchSegments u = owner :: repo :: rest)
    (h1 : net (issueApiUrl owner repo n) = .response st1 body1)
    (hst1 : st1 ≠ 200)
    (h2 : net (issueApiUrl owner repo n ++ "/comments") = .response st2 body2) :
    (fetch_github_issue net token u n).1 =
      .failure ("GitHub API error: " ++ pyStrNat st1) := by
  simp [fetch_github_issue, fetchAttempt, hseg, h1, h2, hst1]

/-- Witness for C8: a 404 issue response yields the 404 error record. -/
theorem c8_api_error_status_witness :
    (fetch_github_issue netIssue404 none seedRepoUrl 7).1 =
      .failure "GitHub API error: 404" :=
  c8_api_error_status netIssue404 none seedRepoUrl 7 "acme" "widgets" []
    404 none 200 (some (.list [])) rfl rfl (by decide) rfl

/-- Counterexample for C8 as stated: the issue response has status 404, but
the comments request raises a transport timeout, and fetch returns the timeout
record instead of the status-code record. -/
theorem c8_api_error_status_counterexample :
    (fetch_github_issue netIssue404CommentsDown none seedRepoUrl 7).1 =
        .failure "Request timeout - GitHub server took too long" ∧
      ("Request timeout - GitHub server took too long" : String) ≠
        "GitHub API error: 404" :=
  ⟨rfl, by decide⟩

/-! ### Claim C10 — issue body that is not valid JSON -/

/-- C10 (amended): when the issue request returns 200 with a body that fails
to decode as JSON and the comments request returns a response (rather than
raising), the `json.JSONDecodeError` from `issue_resp.json()` is caught by the
`except ValueError` arm and fetch returns the invalid-URL record.  If the
comments request raises instead, its exception wins (see the counterexample),
since it is issued before the body is parsed. -/
theorem c10_bad_body_invalid_url_record (net : String → HttpResult)
    (token : Option String) (u : String) (n : Nat) (owner repo : String)
    (rest : List String) (st2 : Nat) (body2 : Option PyJson)
    (hseg : fetchSegments u = owner :: repo :: rest)
    (h1 : net (issueApiUrl owner repo n) = .response 200 none)
    (h2 : net (issueApiUrl owner repo n ++ "/comments") = .response st2 body2) :
    (fetch_github_issue net token u n).1 = .failure "Invalid GitHub URL format" := by
  simp [fetch_github_issue, fetchAttempt, hseg, h1, h2, fetchExcRecord]

/-- Witness for C10: a 200 issue response with an undecodable body yields the
invalid-URL record. -/
theorem c10_bad_body_invalid_url_record_witness :
    (fetch_github_issue netIssueBadBody none seedRepoUrl 7).1 =
      .failure "Invalid GitHub URL format" :=
  c10_bad_body_invalid_url_record netIssueBadBody none seedRepoUrl 7
    "acme" "widgets" [] 200 (some (.list [])) rfl rfl rfl

/-- Counterexample for C10 as stated: the issue response is 200 with an
undecodable body, but the comments request raises a transport timeout, and
fetch returns the timeout record rather than the invalid-URL record. -/
theorem c10_bad_body_counterexample :
    (fetch_github_issue netIssueBadBodyCommentsDown none seedRepoUrl 7).1 =
        .failure "Request timeout - GitHub server took too long" ∧
      ("Request timeout - GitHub server took too long" : String) ≠
        "Invalid GitHub URL format" :=
  ⟨rfl, by decide⟩

/-! ### Claim C6 — explicit timeouts -/

/-- Every request recorded by the try-body's trace carries the explicit
10-unit timeout passed to `requests.get`. -/
theorem fetchAttempt_log_timeout (net : String → HttpResult)
    (token : Option String) (u : String) (n : Nat) :
    ∀ r ∈ (fetchAttempt net token u n).2, r.timeout = some 10 := by
  intro r hr
  unfold fetchAttempt at hr
  split at hr
  · split at hr
    · simp at hr
      simp [hr, issueRequest]
    · split at hr
      · simp at hr
        rcases hr with hr | hr <;> simp [hr, issueRequest, commentsRequest]
      · simp at hr
        rcases hr with hr | hr <;> simp [hr, issueRequest, commentsRequest]
  · simp at hr

/-- The handler wrapper preserves the request trace of the try body. -/
theorem fetch_github_issue_log (net : String → HttpResult)
    (token : Option String) (u : String) (n : Nat) :
    (fetch_github_issue net token u n).2 = (fetchAttempt net token u n).2 := by
  unfold fetch_github_issue
  rcases fetchAttempt net token u n with ⟨res, log⟩
  cases res <;> rfl

/-- C6 (amended): every HTTP request the fetcher issues — the issue request
and the comments request alike — carries the explicit bound `timeout=10`,
while the model request of the analyzer carries no explicit bound and relies
on transport defaults.  The claim's statement that the comments request has no
explicit bound is refuted by the counterexample. -/
theorem c6_timeout_bounds :
    (∀ net : String → HttpResult, ∀ token : Option String, ∀ u : String, ∀ n : Nat,
       ∀ r ∈ (fetch_github_issue net token u n).2, r.timeout = some 10) ∧
    (∀ d : List (String × PyJson), (analyzeModelRequest d).timeout = none) := by
  constructor
  · intro net token u n r hr
    rw [fetch_github_issue_log] at hr
    exact fetchAttempt_log_timeout net token u n r hr
  · intro d
    rfl

/-- Witness for C6: the concrete comments request of a concrete run carries
timeout 10, and a concrete model request carries none. -/
theorem c6_timeout_bounds_witness :
    (commentsRequest none "acme" "widgets" 7).timeout = some 10 ∧
    (analyzeModelRequest []).timeout = none :=
  ⟨c6_timeout_bounds.1 netIssue404 none seedRepoUrl 7
      (commentsRequest none "acme" "widgets" 7) (by decide),
   c6_timeout_bounds.2 []⟩

/-- Counterexample for C6 as stated: in a concrete run both issued requests
carry the explicit timeout 10 — the comments request does not rely on
transport defaults. -/
theorem c6_timeout_bounds_counterexample :
    (fetch_github_issue netCommentsRejected none seedRepoUrl 7).2.map
        HttpRequest.timeout = [some 10, some 10] ∧
      (some 10 : Option Nat) ≠ none :=
  ⟨rfl, by decide⟩

/-! ### Claim C4 — no exception escapes fetch or analyze -/

/-- C4: neither `fetch_github_issue` nor `analyze_issue_with_ai` lets an
exception escape: both are total functions into their record types, and
whenever the embedded `try` body raises any exception, the returned value is a
record carrying an error field produced by the handler chain. -/
theorem c4_failures_become_error_records :
    (∀ (net : String → HttpResult) (token : Option String) (u : String) (n : Nat)
       (e : PyExc) (log : List HttpRequest),
       fetchAttempt net token u n = (.error e, log) →
       ∃ m, (fetch_github_issue net token u n).1 = .failure m) ∧
    (∀ (reply : Except PyExc String) (e : PyExc), analyzeAttempt reply = .error e →
       ∃ m d, analyze_issue_with_ai reply = .failure m d) := by
  constructor
  · intro net token u n e log h
    unfold fetch_github_issue
    rw [h]
    cases e <;> exact ⟨_, rfl⟩
  · intro reply e h
    unfold analyze_issue_with_ai
    rw [h]
    cases e <;> exact ⟨_, _, rfl⟩

/-- Witness for C4: a raising network and a raising model call both produce
error records. -/
theorem c4_failures_become_error_records_witness :
    (∃ m, (fetch_github_issue netUnreachable none seedRepoUrl 7).1 = .failure m) ∧
    (∃ m d, analyze_issue_with_ai (.error (.otherExc "boom")) = .failure m d) :=
  ⟨c4_failures_become_error_records.1 netUnreachable none seedRepoUrl 7
      (.requestError "Connection refused") [issueRequest none "acme" "widgets" 7] rfl,
   c4_failures_become_error_records.2 (.error (.otherExc "boom")) (.otherExc "boom") rfl⟩

/-! ### Claim C5 — fenced model output -/

/-- C5 (amended): for every model reply that is a fenced code block — i.e.
whose stripped text starts with the fence marker and splits into a first piece
followed by an interior piece `mid` — if the interior, after dropping the
leading four characters exactly when it starts with the literal tag `json`,
parses as JSON containing all five success fields, then analyze returns the
parsed record.  Tags other than the literal `json` are not stripped, so a
block tagged `yaml` (say) fails to parse instead (see the counterexample),
which refutes the claim's arbitrary "optional language tag". -/
theorem c5_fenced_json_parsed (raw mid content : String) (j : PyJson)
    (pre : String) (rest : List String)
    (hstart : pyStartsWith (pyStrip raw) "```" = true)
    (hsplit : pySplitOn (pyStrip raw) "```" = pre :: mid :: rest)
    (hcontent : (if pyStartsWith mid "json" then pyDrop mid 4 else mid) = content)
    (hparse : jsonLoads content = some j)
    (hkeys : pyAllKeysIn requiredAnalysisKeys j = .ok true) :
    analyze_issue_with_ai (.ok raw) = .result j := by
  simp [analyze_issue_with_ai, analyzeAttempt, hstart, hsplit, hcontent, hparse, hkeys]

/-- Witness for C5: the claim's concrete fenced object, tagged `json`, is
parsed and its `type` field is `"bug"`. -/
theorem c5_fenced_json_parsed_witness :
    analyze_issue_with_ai (.ok fencedJsonReply) = .result fencedAnalysis ∧
    (match fencedAnalysis with
      | .dict kvs => pyDictLookup kvs "type"
      | _ => none) = some (.str "bug") :=
  ⟨c5_fenced_json_parsed fencedJsonReply
    "json\n\x7b\"summary\":\"s\",\"type\":\"bug\",\"priority_score\":\"3 - x\",\"suggested_labels\":[\"a\"],\"potential_impact\":\"i\"\x7d\n"
    "\n\x7b\"summary\":\"s\",\"type\":\"bug\",\"priority_score\":\"3 - x\",\"suggested_labels\":[\"a\"],\"potential_impact\":\"i\"\x7d\n"
    fencedAnalysis "" [""] rfl rfl rfl rfl rfl, rfl⟩

/-- Counterexample for C5 as stated: the same five-field object in a fenced
block whose language tag is `yaml` is not stripped of its tag, fails to parse,
and analyze returns the parse-failure record instead of the parsed object. -/
theorem c5_fenced_json_parsed_counterexample :
    analyze_issue_with_ai (.ok yamlFencedReply) =
      .failure "AI response parsing failed" (some "Could not parse AI output as JSON") :=
  rfl

/-! ### Claim C9 — incomplete analysis response -/

/-- On structured (container) data, Python's membership test never raises and
agrees with `pyHasKey`. -/
theorem pyContainsKey_structured (k : String) (j : PyJson)
    (h : isStructuredData j = true) :
    pyContainsKey k j = .ok (pyHasKey j k) := by
  cases j <;> simp_all [pyContainsKey, pyHasKey, isStructuredData]

/-- If a structured value misses one of the tested keys, the all-keys check
returns `false` (and raises nothing). -/
theorem pyAllKeysIn_false_of_missing (ks : List String) (j : PyJson)
    (hstruct : isStructuredData j = true) (k : String) (hk : k ∈ ks)
    (hmiss : pyHasKey j k = false) :
    pyAllKeysIn ks j = .ok false := by
  induction ks with
  | nil => cases hk
  | cons a as ih =>
    rcases List.mem_cons.mp hk with rfl | hk2
    · rw [pyAllKeysIn, pyContainsKey_structured k j hstruct, hmiss]
    · rw [pyAllKeysIn, pyContainsKey_structured a j hstruct]
      cases hv : pyHasKey j a
      · rfl
      · exact ih hk2

/-- C9: every unfenced model reply that parses as structured data (a dict or a
list) missing at least one of the five required success fields makes analyze
return the incomplete-response record. -/
theorem c9_incomplete_response (raw : String) (j : PyJson) (k : String)
    (hnofence : pyStartsWith (pyStrip raw) "```" = false)
    (hparse : jsonLoads (pyStrip raw) = some j)
    (hstruct : isStructuredData j = true)
    (hk : k ∈ requiredAnalysisKeys)
    (hmiss : pyHasKey j k = false) :
    analyze_issue_with_ai (.ok raw) = .failure "Incomplete analysis response" none := by
  simp [analyze_issue_with_ai, analyzeAttempt, hnofence, hparse,
    pyAllKeysIn_false_of_missing requiredAnalysisKeys j hstruct k hk hmiss]

/-- Witness for C9: the claim's concrete object missing `potential_impact`
yields the incomplete-response record. -/
theorem c9_incomplete_response_witness :
    analyze_issue_with_ai (.ok incompleteReply) =
      .failure "Incomplete analysis response" none :=
  c9_incomplete_response incompleteReply incompleteParsed "potential_impact"
    rfl rfl rfl (by decide) rfl
